import Mathlib

/-!
Shallow embedding of clang/tools/libclang/CDependencies.cpp (the dependency
discovery C interface of the LLVM project) and proofs about it.

The embedding models:
  - the module identity data (ModuleID) and the structured dependency results
    produced by the scanning consumer (FullDependencies, ModuleDeps,
    FullDependenciesResult);
  - the identity registry deduplication performed by the consumer (modelled
    from the spec, since FullDependencyConsumer itself is outside this
    translation unit);
  - the materialization pipeline getFullDependencies / getFileDependencies and
    the two versioned entry points (v3 legacy single-command and v4
    multi-command), including the error out-parameter protocol, as an explicit
    event trace plus an error-cell state;
  - the OutputLookup PCM-path cache and the buffer-size-negotiation protocol of
    the static lookupModuleOutput helper.
-/

/-- Composite module identity: module name plus context hash
(ModuleID from the scanning tool, used at lines 145-151 of the source). -/
structure ModuleID where
  ModuleName : String
  ContextHash : String
deriving DecidableEq, Repr

/-- ScanningOutputFormat values relevant to this unit: CXDependencyMode_Flat
unwraps to Make and CXDependencyMode_Full to Full (source lines 32-39). -/
inductive ScanningOutputFormat where
  | Make
  | Full
deriving DecidableEq, Repr

/-- ModuleOutputKind, wrapped to CXOutputKind at source lines 41-53. -/
inductive ModuleOutputKind where
  | ModuleFile
  | DependencyFile
  | DependencyTargets
  | DiagnosticSerializationFile
deriving DecidableEq, Repr

/-- One compile command of the multi-command (v4) result shape:
FD.Commands[I]->getExecutable() and ->getArguments() (source lines 266-267). -/
structure TUCommand where
  Executable : String
  Arguments : List String
deriving DecidableEq, Repr

/-- Translation-unit level dependencies as consumed by the materializers
(the fields of tooling FullDependencies read by this unit). -/
structure FullDependencies where
  ContextHash : String
  FileDeps : List String
  ClangModuleDeps : List ModuleID
  DriverCommandLine : List String
  Commands : List TUCommand
deriving DecidableEq, Repr

/-- One discovered module record (the fields of tooling ModuleDeps read at
source lines 144-153). -/
structure ModuleDeps where
  ID : ModuleID
  ClangModuleMapFile : String
  FileDeps : List String
  ClangModuleDeps : List ModuleID
  CanonicalCommandLine : List String
deriving DecidableEq, Repr

/-- The result a successful scan hands to the materializer: newly discovered
modules (scan order) plus the TU-level dependencies. -/
structure FullDependenciesResult where
  DiscoveredModules : List ModuleDeps
  FullDeps : FullDependencies
deriving DecidableEq, Repr

/-- The moduleDeps string encoding used at source lines 151, 231 and 260:
MID.ModuleName + ":" + MID.ContextHash. -/
def encodeModuleDep (mid : ModuleID) : String :=
  mid.ModuleName ++ ":" ++ mid.ContextHash

/-- The externally visible per-module record built at source lines 142-153. -/
structure CXModuleDependency where
  Name : String
  ContextHash : String
  ModuleMapPath : String
  FileDeps : List String
  ModuleDeps : List String
  BuildArguments : List String
deriving DecidableEq, Repr

/-- Builds one CXModuleDependency from a ModuleDeps record, exactly as the
loop body at source lines 143-153 does. -/
def mkCXModuleDependency (md : ModuleDeps) : CXModuleDependency :=
  { Name := md.ID.ModuleName
    ContextHash := md.ID.ContextHash
    ModuleMapPath := md.ClangModuleMapFile
    FileDeps := md.FileDeps
    ModuleDeps := md.ClangModuleDeps.map encodeModuleDep
    BuildArguments := md.CanonicalCommandLine }

/-- Modelled from the spec: the Identity Registry contract markSeen of spec
section 4.1 (the FullDependencyConsumer backing the AlreadySeen set created at
source line 122 is not part of this translation unit). Returns true exactly
the first time an identity is presented, with structural equality on
(name, contextHash). -/
def markSeen (seen : List ModuleID) (id : ModuleID) : Bool × List ModuleID :=
  if id ∈ seen then (false, seen) else (true, id :: seen)

/-- Modelled from the spec: one scan filters the engine-reported module records
through the registry (spec section 4.3); only identities never seen before are
appended to the discovered list, in scan order. Returns the newly discovered
records and the updated registry. -/
def runScan : List ModuleID → List ModuleDeps → List ModuleDeps × List ModuleID
  | seen, [] => ([], seen)
  | seen, md :: rest =>
    match markSeen seen md.ID with
    | (true, seen2) =>
      let t := runScan seen2 rest
      (md :: t.1, t.2)
    | (false, seen2) => runScan seen2 rest

/-- Modelled from the spec: a sequence of scans sharing one registry. Returns
the per-scan discovered lists (each is the payload handed to the discovery
callback for that scan) and the final registry. -/
def runScans : List ModuleID → List (List ModuleDeps) → List (List ModuleDeps) × List ModuleID
  | seen, [] => ([], seen)
  | seen, s :: rest =>
    let r := runScan seen s
    let t := runScans r.2 rest
    (r.1 :: t.1, t.2)

theorem runScan_spec (reported : List ModuleDeps) :
    ∀ seen : List ModuleID,
      ((runScan seen reported).1.map ModuleDeps.ID).Nodup ∧
      (∀ i ∈ (runScan seen reported).1.map ModuleDeps.ID, i ∉ seen) ∧
      (∀ i ∈ seen, i ∈ (runScan seen reported).2) ∧
      (∀ i ∈ (runScan seen reported).1.map ModuleDeps.ID, i ∈ (runScan seen reported).2) := by
  induction reported with
  | nil => intro seen; simp [runScan]
  | cons md rest ih =>
    intro seen
    by_cases h : md.ID ∈ seen
    · have hrec := ih seen
      simpa [runScan, markSeen, h] using hrec
    · have hrec := ih (md.ID :: seen)
      obtain ⟨h1, h2, h3, h4⟩ := hrec
      simp only [runScan, markSeen, h, if_false]
      refine ⟨?_, ?_, ?_, ?_⟩
      · refine List.nodup_cons.mpr ⟨?_, h1⟩
        intro hmem
        exact (h2 _ hmem) (List.mem_cons_self _ _)
      · intro i hi
        rcases List.mem_cons.mp hi with hi | hi
        · exact hi ▸ h
        · intro hs
          exact (h2 _ hi) (List.mem_cons_of_mem _ hs)
      · intro i hi
        exact h3 _ (List.mem_cons_of_mem _ hi)
      · intro i hi
        rcases List.mem_cons.mp hi with hi | hi
        · exact hi ▸ h3 _ (List.mem_cons_self _ _)
        · exact h4 _ hi

theorem runScans_spec (scans : List (List ModuleDeps)) :
    ∀ seen : List ModuleID,
      (((runScans seen scans).1.flatten).map ModuleDeps.ID).Nodup ∧
      (∀ i ∈ ((runScans seen scans).1.flatten).map ModuleDeps.ID, i ∉ seen) := by
  induction scans with
  | nil => intro seen; simp [runScans]
  | cons s rest ih =>
    intro seen
    obtain ⟨hs1, hs2, hs3, hs4⟩ := runScan_spec s seen
    obtain ⟨ht1, ht2⟩ := ih (runScan seen s).2
    simp only [runScans, List.flatten_cons, List.map_append]
    constructor
    · refine List.Nodup.append hs1 ht1 ?_
      intro i hi hj
      exact (ht2 i hj) (hs4 i hi)
    · intro i hi
      rcases List.mem_append.mp hi with hi | hi
      · exact hs2 i hi
      · intro hseen
        exact (ht2 i hi) (hs3 i hseen)

/-- Events observable during one call of the materialization pipeline: the
engine scan (Worker->computeDependencies, source line 124, which is also the
only place the output-resolution callback can fire), the discovery callback
invocation MDC(Context, MDS) (source line 155), and the hand-off of the
TU-level result to the entry point lambda (source line 158). -/
inductive Event where
  | engineRun
  | mdcCall (mds : List CXModuleDependency)
  | handleFullDeps (fd : FullDependencies)
deriving DecidableEq, Repr

/-- The CXString out-parameter cell. isNull models a null CXString pointer;
nullWrite records that a store through a null pointer happened (undefined
behavior in the C++ source). -/
structure CXStringCell where
  isNull : Bool
  val : Option String
  nullWrite : Bool
deriving DecidableEq, Repr

/-- Unconditional store through the pointer, as at source line 128. -/
def CXStringCell.store (c : CXStringCell) (s : String) : CXStringCell :=
  if c.isNull then { c with nullWrite := true } else { c with val := some s }

/-- Guarded store, as in the if (error) blocks at source lines 170-181, 186. -/
def CXStringCell.storeGuarded (c : CXStringCell) (s : String) : CXStringCell :=
  if c.isNull then c else { c with val := some s }

/-- Outcome of getFullDependencies / getFileDependencies: the boolean return
value, the event trace of the call, and the final error cell. -/
structure GFDState where
  success : Bool
  trace : List Event
  err : CXStringCell
deriving DecidableEq, Repr

/-- Embedding of the static getFullDependencies (source lines 116-160). The
engine scan plus consumer (Worker->computeDependencies with the
FullDependencyConsumer, outside this unit) is the scanOutcome parameter: an
engine error message, or the FullDependenciesResult the consumer yields for
the requested mode. On engine failure the error store at line 128 is
unconditional. On success, when DiscoveredModules is non-empty the module set
is built in scan order (lines 139-154) and MDC is invoked (line 155), and the
TU result is handed over afterwards (line 158). -/
def getFullDependencies (scanOutcome : Except String FullDependenciesResult)
    (err : CXStringCell) : GFDState :=
  match scanOutcome with
  | Except.error msg =>
    { success := false, trace := [Event.engineRun], err := err.store msg }
  | Except.ok fdr =>
    let trace :=
      if fdr.DiscoveredModules.isEmpty then [Event.engineRun]
      else [Event.engineRun,
            Event.mdcCall (fdr.DiscoveredModules.map mkCXModuleDependency)]
    { success := true
      trace := trace ++ [Event.handleFullDeps fdr.FullDeps]
      err := err }

/-- The DependencyScanningWorker state read by this unit (its output format,
Worker->getFormat() at source line 185). -/
structure Worker where
  Format : ScanningOutputFormat
deriving DecidableEq, Repr

/-- Embedding of the static getFileDependencies (source lines 162-197):
null-worker check, argc/argv check, error cleared to the empty string, format
check, then delegation to getFullDependencies. All stores before the engine
runs are guarded by if (error). -/
def getFileDependencies (W : Option Worker) (argc : Int)
    (argv : Option (List String)) (errNull : Bool)
    (scanOutcome : Except String FullDependenciesResult) : GFDState :=
  let err0 : CXStringCell := { isNull := errNull, val := none, nullWrite := false }
  match W with
  | none =>
    { success := false, trace := [],
      err := err0.storeGuarded "missing CXDependencyScannerWorker" }
  | some w =>
    if argc < 2 ∨ argv.isNone then
      { success := false, trace := [],
        err := err0.storeGuarded "invalid argc or argv" }
    else
      let err1 := err0.storeGuarded ""
      if w.Format ≠ ScanningOutputFormat.Full then
        { success := false, trace := [],
          err := err1.storeGuarded "unsupported CXDependencyMode for this API" }
      else
        getFullDependencies scanOutcome err1

/-- The legacy (v3) result shape built at source lines 232-236. -/
structure CXFileDependencies where
  ContextHash : String
  FileDeps : List String
  ModuleDeps : List String
  BuildArguments : List String
deriving DecidableEq, Repr

/-- One command record of the v4 result shape (source lines 262-268). -/
structure CXTranslationUnitCommand where
  ContextHash : String
  FileDeps : List String
  ModuleDeps : List String
  Executable : String
  BuildArguments : List String
deriving DecidableEq, Repr

/-- The multi-command (v4) result shape (source line 270). -/
structure CXFileDependenciesV4 where
  NumCommands : Nat
  Commands : List CXTranslationUnitCommand
deriving DecidableEq, Repr

/-- The HandleFullDeps lambda of the v3 entry point (source lines 227-237).
The assert at line 228, assert(!FD.DriverCommandLine.empty()), is modelled as
a guard: none means the asserted caller guarantee was violated. -/
def v3HandleFullDeps (FD : FullDependencies) : Option CXFileDependencies :=
  if FD.DriverCommandLine = [] then none
  else
    some { ContextHash := FD.ContextHash
           FileDeps := FD.FileDeps
           ModuleDeps := FD.ClangModuleDeps.map encodeModuleDep
           BuildArguments := FD.DriverCommandLine }

/-- The HandleFullDeps lambda of the v4 entry point (source lines 256-270).
The assert at line 257, assert(FD.DriverCommandLine.empty()), is modelled as a
guard. One CXTranslationUnitCommand is built per engine command, verbatim. -/
def v4HandleFullDeps (FD : FullDependencies) : Option CXFileDependenciesV4 :=
  if FD.DriverCommandLine = [] then
    some { NumCommands := FD.Commands.length
           Commands := FD.Commands.map fun C =>
             { ContextHash := FD.ContextHash
               FileDeps := FD.FileDeps
               ModuleDeps := FD.ClangModuleDeps.map encodeModuleDep
               Executable := C.Executable
               BuildArguments := C.Arguments } }
  else none

/-- Embedding of clang_experimental_DependencyScannerWorker_getFileDependencies_v3
(source lines 213-240): on success the lambda receives FDR.FullDeps and builds
the legacy shape; on failure FDeps stays null. -/
def getFileDependenciesV3 (W : Option Worker) (argc : Int)
    (argv : Option (List String)) (errNull : Bool)
    (scanOutcome : Except String FullDependenciesResult) :
    Option CXFileDependencies × GFDState :=
  let st := getFileDependencies W argc argv errNull scanOutcome
  match scanOutcome with
  | Except.ok fdr =>
    if st.success then (v3HandleFullDeps fdr.FullDeps, st) else (none, st)
  | Except.error _ => (none, st)

/-- Embedding of clang_experimental_DependencyScannerWorker_getFileDependencies_v4
(source lines 242-274). -/
def getFileDependenciesV4 (W : Option Worker) (argc : Int)
    (argv : Option (List String)) (errNull : Bool)
    (scanOutcome : Except String FullDependenciesResult) :
    Option CXFileDependenciesV4 × GFDState :=
  let st := getFileDependencies W argc argv errNull scanOutcome
  match scanOutcome with
  | Except.ok fdr =>
    if st.success then (v4HandleFullDeps fdr.FullDeps, st) else (none, st)
  | Except.error _ => (none, st)

/-- The NUL byte: SmallVector Buffer(256) at source line 279 is
value-initialized, so unwritten buffer bytes read as zero. -/
def bufZero : Char := Char.ofNat 0

/-- Models the indeterminate bytes the C++ source reads past the end of the
buffer when it constructs a string longer than the buffer (a concrete stand-in
for an out-of-bounds read; none of the theorems depend on its value). -/
def oobByte : Char := Char.ofNat 255

/-- Models std::string(Buffer.begin(), Len) at source line 287, where the
buffer has capacity cap and the callback last wrote the bytes written into it:
the first min(cap, length) bytes come from written, the rest of the buffer
reads as zero, and bytes past the buffer are indeterminate. -/
def readBuf (written : List Char) (cap len : Nat) : List Char :=
  ((written.take cap ++ List.replicate (cap - (written.take cap).length) bufZero)
    ++ List.replicate (len - cap) oobByte).take len

/-- Embedding of the static lookupModuleOutput buffer protocol (source lines
276-288). The callback MLO is modelled by what it does for a given buffer
capacity: the bytes it writes and the required length it returns. The result
is the constructed string together with the list of buffer capacities passed
to the callback, one entry per invocation, in order. -/
def lookupModuleOutputBuffered (MLO : Nat → List Char × Nat) :
    List Char × List Nat :=
  let r1 := MLO 256
  if r1.2 > 256 then
    let r2 := MLO r1.2
    (readBuf r2.1 r1.2 r2.2, [256, r1.2])
  else
    (readBuf r1.1 256 r1.2, [256])

theorem readBuf_length (written : List Char) (cap len : Nat) :
    (readBuf written cap len).length = len := by
  simp [readBuf, List.length_take, List.length_append, List.length_replicate]
  omega

/-- The OutputLookup cache object (source lines 199-211): the PCMPaths map,
plus a log of the invocations of the underlying uncached resolution (one entry
per call of the static lookupModuleOutput helper at lines 293 and 297). -/
structure OutputLookup where
  PCMPaths : List (ModuleID × String)
  extCalls : List (ModuleID × ModuleOutputKind)
deriving DecidableEq, Repr

/-- Association-list lookup modelling unordered_map find/insert probing on the
structural ModuleID key. -/
def lookupAssoc (l : List (ModuleID × String)) (id : ModuleID) : Option String :=
  match l with
  | [] => none
  | p :: rest => if p.1 = id then some p.2 else lookupAssoc rest id

/-- Embedding of OutputLookup::lookupModuleOutput (source lines 290-299). For
any kind other than ModuleFile the uncached resolution runs unconditionally;
for ModuleFile the PCMPaths cache is consulted first and filled on miss. The
uncached resolution (the static helper, together with the C callback behind
it) is modelled by the function ext. -/
def OutputLookup.lookupModuleOutput (ext : ModuleID → ModuleOutputKind → String)
    (st : OutputLookup) (id : ModuleID) (mok : ModuleOutputKind) :
    String × OutputLookup :=
  if mok ≠ ModuleOutputKind.ModuleFile then
    (ext id mok, { st with extCalls := st.extCalls ++ [(id, mok)] })
  else
    match lookupAssoc st.PCMPaths id with
    | some s => (s, st)
    | none =>
      let s := ext id ModuleOutputKind.ModuleFile
      (s, { PCMPaths := (id, s) :: st.PCMPaths
            extCalls := st.extCalls ++ [(id, ModuleOutputKind.ModuleFile)] })

/-- Splits a character list at its last colon: returns the part before the
last colon and the part after it, or none when no colon occurs. -/
def splitLastColonList : List Char → Option (List Char × List Char)
  | [] => none
  | c :: rest =>
    match splitLastColonList rest with
    | some p => some (c :: p.1, p.2)
    | none => if c = ':' then some ([], rest) else none

/-- Splits a string at its last colon (decoder for the moduleDeps encoding). -/
def splitAtLastColon (s : String) : Option (String × String) :=
  match splitLastColonList s.data with
  | some p => some (String.mk p.1, String.mk p.2)
  | none => none

theorem splitLastColonList_no_colon (l : List Char) (h : ∀ c ∈ l, c ≠ ':') :
    splitLastColonList l = none := by
  induction l with
  | nil => rfl
  | cons c rest ih =>
    have hr := ih fun x hx => h x (List.mem_cons_of_mem _ hx)
    have hc : c ≠ ':' := h c (List.mem_cons_self _ _)
    simp [splitLastColonList, hr, hc]

theorem splitLastColonList_append (n h : List Char) (hh : ∀ c ∈ h, c ≠ ':') :
    splitLastColonList (n ++ ':' :: h) = some (n, h) := by
  induction n with
  | nil =>
    simp [splitLastColonList, splitLastColonList_no_colon h hh]
  | cons c rest ih =>
    simp [splitLastColonList, ih]

theorem string_data_append (a b : String) : (a ++ b).data = a.data ++ b.data := by
  cases a
  cases b
  rfl

/-- Example error cell for a non-null CXString out-parameter. -/
def errCellNonNull : CXStringCell := { isNull := false, val := none, nullWrite := false }

/-- Example module identity. -/
def midEx : ModuleID := { ModuleName := "M", ContextHash := "H1" }

/-- Example discovered-module record. -/
def mdEx : ModuleDeps :=
  { ID := midEx, ClangModuleMapFile := "M.modulemap", FileDeps := ["a.h"],
    ClangModuleDeps := [], CanonicalCommandLine := ["-x"] }

/-- Example TU dependencies for the legacy (v3) mode. -/
def fdLegacyEx : FullDependencies :=
  { ContextHash := "H1", FileDeps := ["a.cpp"], ClangModuleDeps := [midEx],
    DriverCommandLine := ["clang", "-c", "a.cpp"], Commands := [] }

/-- Example TU dependencies for the multi-command (v4) mode. -/
def fdMultiEx : FullDependencies :=
  { ContextHash := "H1", FileDeps := ["a.cpp"], ClangModuleDeps := [midEx],
    DriverCommandLine := [],
    Commands := [{ Executable := "clang", Arguments := ["-c", "a.cpp"] }] }

/-- Example successful scan result with one newly discovered module. -/
def fdrLegacyEx : FullDependenciesResult :=
  { DiscoveredModules := [mdEx], FullDeps := fdLegacyEx }

/-- Example successful scan result with no newly discovered modules. -/
def fdrMultiEx : FullDependenciesResult :=
  { DiscoveredModules := [], FullDeps := fdMultiEx }

/-- Example worker in Full scanning format. -/
def workerFullEx : Worker := { Format := ScanningOutputFormat.Full }

/-- Example worker in Make (Flat) scanning format. -/
def workerMakeEx : Worker := { Format := ScanningOutputFormat.Make }

/-- C1: for every sequence of scans performed through one Identity Registry and
every module identity, the discovery-callback payloads report that identity at
most once across the whole sequence, no matter how often the engine
rediscovers it: the identity occurs at most once among the discovered records
of all scans, and hence at most once among the (Name, ContextHash) pairs of
the CXModuleDependency entries built from them. -/
theorem c1_at_most_once_discovery (scans : List (List ModuleDeps)) (id : ModuleID) :
    List.count id (((runScans [] scans).1.flatten).map ModuleDeps.ID) ≤ 1 ∧
    List.count id
      ((((runScans [] scans).1.flatten).map mkCXModuleDependency).map
        (fun m => ModuleID.mk m.Name m.ContextHash)) ≤ 1 := by
  have hnodup := (runScans_spec scans []).1
  have h1 : List.count id (((runScans [] scans).1.flatten).map ModuleDeps.ID) ≤ 1 :=
    List.nodup_iff_count_le_one.mp hnodup id
  refine ⟨h1, ?_⟩
  have hcomp : ((fun m : CXModuleDependency => ModuleID.mk m.Name m.ContextHash) ∘
      mkCXModuleDependency) = ModuleDeps.ID := by
    funext md
    rfl
  rw [List.map_map, hcomp]
  exact h1

/-- C2: for every successful scan, the discovery callback MDC is never invoked
when the set of newly discovered modules is empty; when it is non-empty, MDC
is invoked exactly once, with all newly discovered modules in scan order, and
that invocation happens before the TU-level result is handed to the caller
(the mdcCall event precedes the handleFullDeps event in the trace). -/
theorem c2_discovery_callback_ordering (fdr : FullDependenciesResult)
    (err : CXStringCell) :
    (getFullDependencies (Except.ok fdr) err).success = true ∧
    (fdr.DiscoveredModules = [] →
      (getFullDependencies (Except.ok fdr) err).trace =
        [Event.engineRun, Event.handleFullDeps fdr.FullDeps]) ∧
    (fdr.DiscoveredModules ≠ [] →
      (getFullDependencies (Except.ok fdr) err).trace =
        [Event.engineRun,
         Event.mdcCall (fdr.DiscoveredModules.map mkCXModuleDependency),
         Event.handleFullDeps fdr.FullDeps]) := by
  refine ⟨rfl, ?_, ?_⟩ <;> intro h <;>
    simp [getFullDependencies, List.isEmpty_iff, h]

/-- Witness for C2: a concrete successful scan with one newly discovered
module produces the engine event, then the discovery callback with that
module, then the TU hand-off. -/
theorem c2_witness :
    (getFullDependencies (Except.ok fdrLegacyEx) errCellNonNull).trace =
      [Event.engineRun,
       Event.mdcCall (fdrLegacyEx.DiscoveredModules.map mkCXModuleDependency),
       Event.handleFullDeps fdrLegacyEx.FullDeps] :=
  (c2_discovery_callback_ordering fdrLegacyEx errCellNonNull).2.2 (by decide)

/-- C3: for every output resolver instance and ModuleID, resolving twice with
the ModuleFile kind starting from a state where the identity is not cached
performs the underlying uncached resolution exactly once (the second call
returns the cached string and leaves the state unchanged), while resolving
with any other output kind performs the uncached resolution on every single
call and never touches the cache. -/
theorem c3_output_cache (ext : ModuleID → ModuleOutputKind → String)
    (st : OutputLookup) (id : ModuleID) (mok : ModuleOutputKind) :
    (lookupAssoc st.PCMPaths id = none →
      (OutputLookup.lookupModuleOutput ext
          (OutputLookup.lookupModuleOutput ext st id ModuleOutputKind.ModuleFile).2
          id ModuleOutputKind.ModuleFile).2.extCalls =
        st.extCalls ++ [(id, ModuleOutputKind.ModuleFile)] ∧
      (OutputLookup.lookupModuleOutput ext
          (OutputLookup.lookupModuleOutput ext st id ModuleOutputKind.ModuleFile).2
          id ModuleOutputKind.ModuleFile).1 =
        (OutputLookup.lookupModuleOutput ext st id ModuleOutputKind.ModuleFile).1 ∧
      (OutputLookup.lookupModuleOutput ext st id ModuleOutputKind.ModuleFile).1 =
        ext id ModuleOutputKind.ModuleFile ∧
      (OutputLookup.lookupModuleOutput ext
          (OutputLookup.lookupModuleOutput ext st id ModuleOutputKind.ModuleFile).2
          id ModuleOutputKind.ModuleFile).2 =
        (OutputLookup.lookupModuleOutput ext st id ModuleOutputKind.ModuleFile).2) ∧
    (mok ≠ ModuleOutputKind.ModuleFile →
      (OutputLookup.lookupModuleOutput ext st id mok).2.extCalls =
        st.extCalls ++ [(id, mok)] ∧
      (OutputLookup.lookupModuleOutput ext st id mok).2.PCMPaths = st.PCMPaths ∧
      (OutputLookup.lookupModuleOutput ext st id mok).1 = ext id mok) := by
  constructor
  · intro hmiss
    simp [OutputLookup.lookupModuleOutput, hmiss, lookupAssoc]
  · intro hk
    simp [OutputLookup.lookupModuleOutput, hk]

/-- Witness for C3: a concrete resolver, identity and non-ModuleFile kind. -/
theorem c3_witness :
    (OutputLookup.lookupModuleOutput (fun _ _ => "out.pcm")
        (OutputLookup.lookupModuleOutput (fun _ _ => "out.pcm")
          { PCMPaths := [], extCalls := [] } midEx ModuleOutputKind.ModuleFile).2
        midEx ModuleOutputKind.ModuleFile).2.extCalls =
      [(midEx, ModuleOutputKind.ModuleFile)] ∧
    (OutputLookup.lookupModuleOutput (fun _ _ => "a.d")
        { PCMPaths := [], extCalls := [] } midEx
        ModuleOutputKind.DependencyFile).2.extCalls =
      [(midEx, ModuleOutputKind.DependencyFile)] :=
  ⟨((c3_output_cache (fun _ _ => "out.pcm") { PCMPaths := [], extCalls := [] }
      midEx ModuleOutputKind.DependencyFile).1 (by decide)).1,
   ((c3_output_cache (fun _ _ => "a.d") { PCMPaths := [], extCalls := [] }
      midEx ModuleOutputKind.DependencyFile).2 (by decide)).1⟩

/-- C4: every output-path resolution first invokes the callback with a
256-byte buffer; if the reported required length fits, the callback is invoked
exactly once and the result has that length; if it exceeds 256, the resolver
invokes the callback exactly one more time with a buffer of exactly the
reported length, and the final string has the length reported by that second
invocation; in particular a callback consistently reporting 300 causes exactly
one retry with a 300-byte buffer and a final string of length 300. -/
theorem c4_buffer_retry (MLO : Nat → List Char × Nat) :
    ((MLO 256).2 ≤ 256 →
      (lookupModuleOutputBuffered MLO).2 = [256] ∧
      (lookupModuleOutputBuffered MLO).1.length = (MLO 256).2) ∧
    (256 < (MLO 256).2 →
      (lookupModuleOutputBuffered MLO).2 = [256, (MLO 256).2] ∧
      (lookupModuleOutputBuffered MLO).1.length = (MLO (MLO 256).2).2) ∧
    ((MLO 256).2 = 300 → (MLO 300).2 = 300 →
      (lookupModuleOutputBuffered MLO).2 = [256, 300] ∧
      (lookupModuleOutputBuffered MLO).1.length = 300) := by
  refine ⟨?_, ?_, ?_⟩
  · intro hle
    have h : ¬ ((MLO 256).2 > 256) := by omega
    simp [lookupModuleOutputBuffered, h, readBuf_length]
  · intro hgt
    simp [lookupModuleOutputBuffered, hgt, readBuf_length]
  · intro h1 h2
    have hgt : (MLO 256).2 > 256 := by omega
    simp [lookupModuleOutputBuffered, hgt, readBuf_length, h1, h2]

/-- Example callback: writes up to its capacity and always reports a required
length of 300, idempotently. -/
def mloEx : Nat → List Char × Nat := fun n => (List.replicate (min n 300) 'a', 300)

/-- Witness for C4: the 300-reporting callback against the 256-byte buffer is
retried exactly once with a 300-byte buffer and yields a string of length 300. -/
theorem c4_witness :
    (lookupModuleOutputBuffered mloEx).2 = [256, 300] ∧
    (lookupModuleOutputBuffered mloEx).1.length = 300 :=
  (c4_buffer_retry mloEx).2.2 rfl rfl

/-- Example misbehaving callback: reports 300 against the 256-byte buffer and
then 400 against the 300-byte retry buffer. -/
def mloBadEx : Nat → List Char × Nat :=
  fun cap => ([], if cap = 256 then 300 else 400)

/-- Counterexample for C5: with a callback that misreports again after the one
permitted retry, the resolver performs no defensive check at all: it stops at
two invocations (capacities 256 then 300) and silently constructs a result
string of length 400, strictly longer than the 300-byte buffer it handed to
the callback (an out-of-bounds read in the C++ source, not a detected fatal
condition). -/
theorem c5_counterexample :
    (lookupModuleOutputBuffered mloBadEx).2 = [256, 300] ∧
    300 < (lookupModuleOutputBuffered mloBadEx).1.length := by
  constructor
  · decide
  · have h : (lookupModuleOutputBuffered mloBadEx).1.length = 400 := by
      simp [lookupModuleOutputBuffered, mloBadEx, readBuf_length]
    omega

/-- C5 amended: a resolution callback that misreports its required buffer
length again after the one permitted retry is silently ignored, not treated as
a fatal condition: the resolver never invokes the callback a third time and
constructs the result string with the second reported length, which then
strictly exceeds the buffer it handed to the callback. -/
theorem c5_amended_silent_overrun (MLO : Nat → List Char × Nat)
    (h1 : 256 < (MLO 256).2) (h2 : (MLO 256).2 < (MLO (MLO 256).2).2) :
    (lookupModuleOutputBuffered MLO).2 = [256, (MLO 256).2] ∧
    (MLO 256).2 < (lookupModuleOutputBuffered MLO).1.length := by
  have hlen : (lookupModuleOutputBuffered MLO).1.length = (MLO (MLO 256).2).2 := by
    simp [lookupModuleOutputBuffered, h1, readBuf_length]
  constructor
  · simp [lookupModuleOutputBuffered, h1]
  · rw [hlen]
    exact h2

/-- Witness for the amended C5 at the concrete misbehaving callback. -/
theorem c5_amended_witness :
    (lookupModuleOutputBuffered mloBadEx).2 = [256, 300] ∧
    300 < (lookupModuleOutputBuffered mloBadEx).1.length := by
  have h := c5_amended_silent_overrun mloBadEx (by decide) (by decide)
  have he : (mloBadEx 256).2 = 300 := rfl
  rw [he] at h
  exact h

/-- C6: the moduleDeps entries are always encoded as name + ":" + contextHash
by encodeModuleDep, both in the per-module records and in the TU-level v3
record; and for every ModuleID whose contextHash contains no colon, splitting
the encoded string at its last colon recovers exactly the original
(name, contextHash) pair. -/
theorem c6_moduledeps_roundtrip (mid : ModuleID)
    (h : ∀ c ∈ mid.ContextHash.data, c ≠ ':') :
    splitAtLastColon (encodeModuleDep mid) = some (mid.ModuleName, mid.ContextHash) ∧
    (∀ md : ModuleDeps,
      (mkCXModuleDependency md).ModuleDeps = md.ClangModuleDeps.map encodeModuleDep) ∧
    (∀ FD r, v3HandleFullDeps FD = some r →
      r.ModuleDeps = FD.ClangModuleDeps.map encodeModuleDep) := by
  refine ⟨?_, fun md => rfl, ?_⟩
  · have hc : (":" : String).data = [':'] := rfl
    have hdata : (encodeModuleDep mid).data =
        mid.ModuleName.data ++ ':' :: mid.ContextHash.data := by
      simp [encodeModuleDep, string_data_append, hc]
    unfold splitAtLastColon
    rw [hdata, splitLastColonList_append _ _ h]
  · intro FD r hfr
    by_cases hd : FD.DriverCommandLine = []
    · simp [v3HandleFullDeps, hd] at hfr
    · simp [v3HandleFullDeps, hd] at hfr
      rw [← hfr]

/-- Witness for C6 at a concrete identity with a colon-free hex-style hash. -/
theorem c6_witness :
    splitAtLastColon (encodeModuleDep { ModuleName := "Foo", ContextHash := "abc123" }) =
      some ("Foo", "abc123") :=
  (c6_moduledeps_roundtrip { ModuleName := "Foo", ContextHash := "abc123" }
    (by decide)).1

/-- C7: the two result modes of one scan are mutually exclusive. The legacy
(v3) materializer succeeds exactly when the synthesized driver command line is
non-empty, and then folds its arguments directly into the single TU record;
the multi-command (v4) materializer succeeds exactly when the legacy driver
command line is empty, and then preserves the engine's original list of
compile commands verbatim, one record per command with that command's
executable and argument sequence. No FullDependencies value satisfies both. -/
theorem c7_mode_exclusivity (FD : FullDependencies) :
    ((v3HandleFullDeps FD).isSome ↔ FD.DriverCommandLine ≠ []) ∧
    ((v4HandleFullDeps FD).isSome ↔ FD.DriverCommandLine = []) ∧
    ¬((v3HandleFullDeps FD).isSome ∧ (v4HandleFullDeps FD).isSome) ∧
    (∀ r, v3HandleFullDeps FD = some r →
      r.BuildArguments = FD.DriverCommandLine ∧ r.ContextHash = FD.ContextHash ∧
      r.FileDeps = FD.FileDeps) ∧
    (∀ r, v4HandleFullDeps FD = some r →
      r.NumCommands = FD.Commands.length ∧
      r.Commands = FD.Commands.map (fun C =>
        { ContextHash := FD.ContextHash
          FileDeps := FD.FileDeps
          ModuleDeps := FD.ClangModuleDeps.map encodeModuleDep
          Executable := C.Executable
          BuildArguments := C.Arguments })) := by
  by_cases hd : FD.DriverCommandLine = []
  · refine ⟨by simp [v3HandleFullDeps, hd], by simp [v4HandleFullDeps, hd], ?_, ?_, ?_⟩
    · simp [v3HandleFullDeps, hd]
    · intro r hr
      simp [v3HandleFullDeps, hd] at hr
    · intro r hr
      simp [v4HandleFullDeps, hd] at hr
      rw [← hr]
      exact ⟨rfl, rfl⟩
  · refine ⟨by simp [v3HandleFullDeps, hd], by simp [v4HandleFullDeps, hd], ?_, ?_, ?_⟩
    · simp [v4HandleFullDeps, hd]
    · intro r hr
      simp [v3HandleFullDeps, hd] at hr
      rw [← hr]
      exact ⟨rfl, rfl, rfl⟩
    · intro r hr
      simp [v4HandleFullDeps, hd] at hr

/-- Witness for C7 at concrete legacy-mode and multi-command-mode TU values. -/
theorem c7_witness :
    (v3HandleFullDeps fdLegacyEx).isSome ∧ (v4HandleFullDeps fdLegacyEx) = none ∧
    (v4HandleFullDeps fdMultiEx).isSome ∧ (v3HandleFullDeps fdMultiEx) = none := by
  have h1 := (c7_mode_exclusivity fdLegacyEx).1.mpr (by decide)
  have h2 := (c7_mode_exclusivity fdMultiEx).2.1.mpr (by decide)
  have h3 : ¬ (v4HandleFullDeps fdLegacyEx).isSome := fun hs => by
    have := (c7_mode_exclusivity fdLegacyEx).2.1.mp hs
    exact absurd this (by decide)
  have h4 : ¬ (v3HandleFullDeps fdMultiEx).isSome := fun hs => by
    have := (c7_mode_exclusivity fdMultiEx).1.mp hs
    exact this (by decide)
  exact ⟨h1, Option.not_isSome_iff_eq_none.mp h3, h2,
    Option.not_isSome_iff_eq_none.mp h4⟩

/-- C8: every invocation with a null worker handle, with argc below 2 or a
null argv, or against a worker whose format is not Full, fails before the
engine, the discovery callback or the output-resolution callback can run (the
event trace is empty), returns false (hence a null result), and, the error
out-parameter being non-null, stores a non-empty descriptive message; the
non-Full case stores the explicit unsupported-mode message. -/
theorem c8_pre_engine_validation (W : Option Worker) (argc : Int)
    (argv : Option (List String)) (scan : Except String FullDependenciesResult)
    (h : W = none ∨ argc < 2 ∨ argv = none ∨
      ∃ w, W = some w ∧ w.Format ≠ ScanningOutputFormat.Full) :
    (getFileDependencies W argc argv false scan).success = false ∧
    (getFileDependencies W argc argv false scan).trace = [] ∧
    (∃ s, (getFileDependencies W argc argv false scan).err.val = some s ∧ s ≠ "") ∧
    ((∃ w, W = some w ∧ ¬(argc < 2) ∧ argv ≠ none ∧
        w.Format ≠ ScanningOutputFormat.Full) →
      (getFileDependencies W argc argv false scan).err.val =
        some "unsupported CXDependencyMode for this API") := by
  cases W with
  | none =>
    refine ⟨rfl, rfl, ⟨"missing CXDependencyScannerWorker", rfl, by decide⟩, ?_⟩
    rintro ⟨w, hw, -⟩
    exact Option.noConfusion hw
  | some w =>
    by_cases h2 : argc < 2 ∨ argv.isNone
    · rcases h2 with h2 | h2
      · have hred : getFileDependencies (some w) argc argv false scan =
            { success := false, trace := [],
              err := CXStringCell.storeGuarded
                { isNull := false, val := none, nullWrite := false }
                "invalid argc or argv" } := by
          simp [getFileDependencies, h2]
        rw [hred]
        refine ⟨rfl, rfl, ⟨"invalid argc or argv", rfl, by decide⟩, ?_⟩
        rintro ⟨w2, -, hargc, -, -⟩
        exact absurd h2 hargc
      · have hred : getFileDependencies (some w) argc argv false scan =
            { success := false, trace := [],
              err := CXStringCell.storeGuarded
                { isNull := false, val := none, nullWrite := false }
                "invalid argc or argv" } := by
          simp [getFileDependencies, h2]
        rw [hred]
        refine ⟨rfl, rfl, ⟨"invalid argc or argv", rfl, by decide⟩, ?_⟩
        rintro ⟨w2, -, -, hargv, -⟩
        exact absurd (Option.isNone_iff_eq_none.mp h2) hargv
    · rw [not_or] at h2
      obtain ⟨ha, hb⟩ := h2
      have hb2 : argv ≠ none := by
        intro hn
        exact hb (by simp [hn])
      have hfmt : w.Format ≠ ScanningOutputFormat.Full := by
        rcases h with h | h | h | ⟨w2, hw2, hf2⟩
        · exact Option.noConfusion h
        · exact absurd h ha
        · exact absurd h hb2
        · cases Option.some.inj hw2
          exact hf2
      have hred : getFileDependencies (some w) argc argv false scan =
          { success := false, trace := [],
            err := CXStringCell.storeGuarded
              (CXStringCell.storeGuarded
                { isNull := false, val := none, nullWrite := false } "")
              "unsupported CXDependencyMode for this API" } := by
        simp [getFileDependencies, ha, hb2, hfmt]
      rw [hred]
      exact ⟨rfl, rfl,
        ⟨"unsupported CXDependencyMode for this API", rfl, by decide⟩,
        fun _ => rfl⟩

/-- Witness for C8: a Make-format worker with a well-formed command is
rejected with the unsupported-mode message and an empty trace. -/
theorem c8_witness :
    (getFileDependencies (some workerMakeEx) 2 (some ["clang", "a.cpp"]) false
      (Except.ok fdrLegacyEx)).trace = [] ∧
    (getFileDependencies (some workerMakeEx) 2 (some ["clang", "a.cpp"]) false
      (Except.ok fdrLegacyEx)).err.val =
      some "unsupported CXDependencyMode for this API" := by
  have h := c8_pre_engine_validation (some workerMakeEx) 2
    (some ["clang", "a.cpp"]) (Except.ok fdrLegacyEx)
    (Or.inr (Or.inr (Or.inr ⟨workerMakeEx, rfl, by decide⟩)))
  exact ⟨h.2.1, h.2.2.2 ⟨workerMakeEx, rfl, by decide, by decide, by decide⟩⟩

theorem gfd_err_dichotomy (W : Option Worker) (argc : Int)
    (argv : Option (List String)) (scan : Except String FullDependenciesResult)
    (hm : ∀ m, scan = Except.error m → m ≠ "") :
    ((getFileDependencies W argc argv false scan).success = true ∧
      (getFileDependencies W argc argv false scan).err.val = some "" ∧
      ∃ fdr, scan = Except.ok fdr) ∨
    ((getFileDependencies W argc argv false scan).success = false ∧
      ∃ s, (getFileDependencies W argc argv false scan).err.val = some s ∧ s ≠ "") := by
  cases W with
  | none =>
    exact Or.inr ⟨rfl, "missing CXDependencyScannerWorker", rfl, by decide⟩
  | some w =>
    by_cases h2 : argc < 2 ∨ argv.isNone
    · rcases h2 with h2 | h2 <;>
      · refine Or.inr ⟨?_, "invalid argc or argv", ?_, by decide⟩ <;>
          simp [getFileDependencies, CXStringCell.storeGuarded, h2]
    · rw [not_or] at h2
      obtain ⟨ha, hb⟩ := h2
      have hb2 : argv ≠ none := by
        intro hn
        exact hb (by simp [hn])
      by_cases hfmt : w.Format = ScanningOutputFormat.Full
      · have hred : getFileDependencies (some w) argc argv false scan =
            getFullDependencies scan
              (CXStringCell.storeGuarded
                { isNull := false, val := none, nullWrite := false } "") := by
          simp [getFileDependencies, ha, hb2, hfmt]
        rw [hred]
        cases scan with
        | error m =>
          exact Or.inr ⟨rfl, m, rfl, hm m rfl⟩
        | ok fdr =>
          exact Or.inl ⟨rfl, rfl, fdr, rfl⟩
      · refine Or.inr ⟨?_, "unsupported CXDependencyMode for this API", ?_, by decide⟩ <;>
          simp [getFileDependencies, CXStringCell.storeGuarded, ha, hb2, hfmt]

/-- C9: for every invocation of the v3 or v4 entry point with a non-null error
out-parameter, the engine error messages being non-empty and the consumer
honoring the asserted mode guarantees, the call returns a non-null result if
and only if the error out-string is the empty string, and on every failure
path the result is null and the error string is non-empty (error signalling is
string-emptiness, not an exception: the embedding is a total function). -/
theorem c9_result_iff_empty_error (W : Option Worker) (argc : Int)
    (argv : Option (List String)) (scan3 scan4 : Except String FullDependenciesResult)
    (hm3 : ∀ m, scan3 = Except.error m → m ≠ "")
    (hm4 : ∀ m, scan4 = Except.error m → m ≠ "")
    (hd3 : ∀ fdr, scan3 = Except.ok fdr → fdr.FullDeps.DriverCommandLine ≠ [])
    (hd4 : ∀ fdr, scan4 = Except.ok fdr → fdr.FullDeps.DriverCommandLine = []) :
    (((getFileDependenciesV3 W argc argv false scan3).1.isSome ↔
        (getFileDependenciesV3 W argc argv false scan3).2.err.val = some "") ∧
      ((getFileDependenciesV3 W argc argv false scan3).1 = none →
        ∃ s, (getFileDependenciesV3 W argc argv false scan3).2.err.val = some s ∧
          s ≠ "")) ∧
    (((getFileDependenciesV4 W argc argv false scan4).1.isSome ↔
        (getFileDependenciesV4 W argc argv false scan4).2.err.val = some "") ∧
      ((getFileDependenciesV4 W argc argv false scan4).1 = none →
        ∃ s, (getFileDependenciesV4 W argc argv false scan4).2.err.val = some s ∧
          s ≠ "")) := by
  constructor
  · rcases gfd_err_dichotomy W argc argv scan3 hm3 with
      ⟨hs, he, fdr, hscan⟩ | ⟨hs, s, he, hsne⟩
    · subst hscan
      have hdrv := hd3 fdr rfl
      constructor
      · simp [getFileDependenciesV3, hs, he, v3HandleFullDeps, hdrv]
      · intro hnone
        simp [getFileDependenciesV3, hs, v3HandleFullDeps, hdrv] at hnone
    · have hne : (some s : Option String) ≠ some "" := by
        intro hc
        exact hsne (Option.some.inj hc)
      constructor
      · cases scan3 <;> simp [getFileDependenciesV3, hs, he, hne]
      · intro _
        cases scan3 <;> simp [getFileDependenciesV3, hs] <;> exact ⟨s, he, hsne⟩
  · rcases gfd_err_dichotomy W argc argv scan4 hm4 with
      ⟨hs, he, fdr, hscan⟩ | ⟨hs, s, he, hsne⟩
    · subst hscan
      have hdrv := hd4 fdr rfl
      constructor
      · simp [getFileDependenciesV4, hs, he, v4HandleFullDeps, hdrv]
      · intro hnone
        simp [getFileDependenciesV4, hs, v4HandleFullDeps, hdrv] at hnone
    · have hne : (some s : Option String) ≠ some "" := by
        intro hc
        exact hsne (Option.some.inj hc)
      constructor
      · cases scan4 <;> simp [getFileDependenciesV4, hs, he, hne]
      · intro _
        cases scan4 <;> simp [getFileDependenciesV4, hs] <;> exact ⟨s, he, hsne⟩

/-- Witness for C9 at a concrete valid invocation of both entry points. -/
theorem c9_witness :
    (getFileDependenciesV3 (some workerFullEx) 2 (some ["clang", "a.cpp"]) false
      (Except.ok fdrLegacyEx)).1.isSome ∧
    (getFileDependenciesV4 (some workerFullEx) 2 (some ["clang", "a.cpp"]) false
      (Except.ok fdrMultiEx)).1.isSome := by
  have h := c9_result_iff_empty_error (some workerFullEx) 2 (some ["clang", "a.cpp"])
    (Except.ok fdrLegacyEx) (Except.ok fdrMultiEx)
    (fun m hm => nomatch hm) (fun m hm => nomatch hm)
    (fun fdr hf => by cases hf; decide)
    (fun fdr hf => by cases hf; decide)
  exact ⟨h.1.1.mpr (by decide), h.2.1.mpr (by decide)⟩

theorem gfd_fail_results_none (W : Option Worker) (argc : Int)
    (argv : Option (List String)) (errNull : Bool)
    (scan : Except String FullDependenciesResult)
    (hs : (getFileDependencies W argc argv errNull scan).success = false) :
    (getFileDependenciesV3 W argc argv errNull scan).1 = none ∧
    (getFileDependenciesV4 W argc argv errNull scan).1 = none := by
  cases scan <;> constructor <;>
    simp [getFileDependenciesV3, getFileDependenciesV4, hs]

/-- C10: with a null error out-parameter, every pre-engine validation failure
(null worker, argc below 2, null argv, non-Full format) returns a null result
from both entry points without ever writing through the null error pointer
(the guarded stores are skipped), whereas the engine-failure path stores
through the error pointer unconditionally, even when it is null. -/
theorem c10_null_error_pointer (W : Option Worker) (argc : Int)
    (argv : Option (List String)) (scan : Except String FullDependenciesResult) :
    ((W = none ∨ argc < 2 ∨ argv = none ∨
        ∃ w, W = some w ∧ w.Format ≠ ScanningOutputFormat.Full) →
      (getFileDependenciesV3 W argc argv true scan).1 = none ∧
      (getFileDependenciesV4 W argc argv true scan).1 = none ∧
      (getFileDependencies W argc argv true scan).success = false ∧
      (getFileDependencies W argc argv true scan).err.nullWrite = false ∧
      (getFileDependencies W argc argv true scan).err.val = none) ∧
    (∀ w m, W = some w → w.Format = ScanningOutputFormat.Full → ¬(argc < 2) →
      argv ≠ none → scan = Except.error m →
      (getFileDependencies W argc argv true scan).err.nullWrite = true) := by
  constructor
  · intro h
    have hred : getFileDependencies W argc argv true scan =
        { success := false, trace := [],
          err := { isNull := true, val := none, nullWrite := false } } := by
      rcases h with h | h | h | ⟨w, hw, hfmt⟩
      · subst h
        rfl
      · cases W with
        | none => rfl
        | some w => simp [getFileDependencies, CXStringCell.storeGuarded, h]
      · subst h
        cases W with
        | none => rfl
        | some w => simp [getFileDependencies, CXStringCell.storeGuarded]
      · subst hw
        by_cases h2 : argc < 2 ∨ argv.isNone
        · rcases h2 with h2 | h2 <;>
            simp [getFileDependencies, CXStringCell.storeGuarded, h2]
        · rw [not_or] at h2
          simp [getFileDependencies, CXStringCell.storeGuarded, h2.1, h2.2, hfmt]
    have hs : (getFileDependencies W argc argv true scan).success = false := by
      rw [hred]
    obtain ⟨hv3, hv4⟩ := gfd_fail_results_none W argc argv true scan hs
    exact ⟨hv3, hv4, hs, by rw [hred], by rw [hred]⟩
  · intro w m hw hfmt hargc hargv hscan
    subst hw
    subst hscan
    have hred : getFileDependencies (some w) argc argv true (Except.error m) =
        getFullDependencies (Except.error m)
          (CXStringCell.storeGuarded
            (CXStringCell.storeGuarded
              { isNull := true, val := none, nullWrite := false } "") "") := by
      simp [getFileDependencies, CXStringCell.storeGuarded, hargc, hfmt,
        Option.isNone_iff_eq_none, hargv]
    rw [hred]
    rfl

/-- Witness for C10: a null worker with a null error pointer yields a null
result and no null-pointer write, while an engine failure with a null error
pointer does write through the null pointer. -/
theorem c10_witness :
    (getFileDependenciesV3 none 2 (some ["clang", "a.cpp"]) true
      (Except.ok fdrLegacyEx)).1 = none ∧
    (getFileDependencies none 2 (some ["clang", "a.cpp"]) true
      (Except.ok fdrLegacyEx)).err.nullWrite = false ∧
    (getFileDependencies (some workerFullEx) 2 (some ["clang", "a.cpp"]) true
      (Except.error "fatal scan failure")).err.nullWrite = true := by
  have h1 := (c10_null_error_pointer none 2 (some ["clang", "a.cpp"])
    (Except.ok fdrLegacyEx)).1 (Or.inl rfl)
  have h2 := (c10_null_error_pointer (some workerFullEx) 2 (some ["clang", "a.cpp"])
    (Except.error "fatal scan failure")).2 workerFullEx "fatal scan failure"
    rfl rfl (by decide) (by decide) rfl
  exact ⟨h1.1, h1.2.2.2.1, h2⟩
